import Mathlib

/-
  Shallow embedding of the TrainerDay analytics-api ingestion and identity
  resolution pipeline (Express router over PostgreSQL, src/unnamed/part_000),
  together with the table constraints declared by the setup scripts
  (src/unnamed/part_002): analytics.event_name / distinct_id / timestamp are
  NOT NULL, analytics_users.distinct_id is UNIQUE NOT NULL, and
  identity_mappings is UNIQUE on (canonical_user_id, mapped_id, mapping_type).

  Modelling conventions:
  - JSON property values are modelled by `Val` (strings and integers); this
    covers every value the claims exercise.  JavaScript truthiness is
    modelled by `jsTruthy` (empty string and 0 are falsy).
  - A JS object is an association list with distinct keys; lookup is `pget`.
  - Timestamps are abstract integers (`now` parameters); `new Date(t * 1000)`
    on a non-numeric `time` yields an invalid date, modelled as `none`.
  - node-postgres turns an `undefined` parameter into SQL NULL, so optional
    payload fields travel as `Option`; parameter-to-text coercion of numbers
    into varchar columns is `valText`.
  - Fallible store operations return `Except Failure _`; the router
    BEGIN/COMMIT/ROLLBACK discipline appears as: on any error the handler
    returns the original database (rollback) and the uniform 500 response.
  - BIGSERIAL surrogate ids are modelled as the row count plus one.
-/

namespace AnalyticsApi

/-- JSON-ish scalar values carried in event property maps. -/
inductive Val where
  | str (s : String)
  | num (n : Int)
deriving DecidableEq, Repr

/-- Text coercion used when a JS value is bound to a varchar column. -/
def valText : Val → String
  | .str s => s
  | .num n => toString n

/-- JavaScript truthiness of a property value. -/
def jsTruthy : Val → Bool
  | .str s => s ≠ ""
  | .num n => n ≠ 0

/-- Truthiness of a possibly-absent value (undefined is falsy). -/
def truthyO : Option Val → Bool
  | none => false
  | some v => jsTruthy v

/-- JavaScript `a || b`. -/
def jsOr (a b : Option Val) : Option Val :=
  if truthyO a then a else b

/-- JavaScript `a || null`. -/
def orNull (a : Option Val) : Option Val :=
  if truthyO a then a else none

/-- A JS object (association list, keys unique by construction). -/
abbrev Props := List (String × Val)

/-- Property lookup, `obj[k]`. -/
def pget (k : String) : Props → Option Val
  | [] => none
  | (k', v) :: rest => if k' = k then some v else pget k rest

/-- Property assignment `obj[k] = v` (overwrites or appends the binding). -/
def setProp (p : Props) (k : String) (v : Val) : Props :=
  match p with
  | [] => [(k, v)]
  | (k', v') :: rest =>
      if k' = k then (k', v) :: rest else (k', v') :: setProp rest k v

/-- The ways the work of a request can throw inside the transaction: a JS
TypeError (categorizing an absent event name, or calling `.toLowerCase()` on
a truthy non-string `$os`), a NOT NULL violation, or a UNIQUE violation from
PostgreSQL. -/
inductive Failure where
  | typeError
  | notNullViolation
  | uniqueViolation
deriving DecidableEq, Repr

/-- Model of `s.toLowerCase()`, written over the character list so that concrete
instances reduce in the kernel. -/
def lowerStr (s : String) : String :=
  String.mk (s.data.map Char.toLower)

/-- The whitespace characters trimmed by JS ToNumber on strings (the ASCII
ones; exotic Unicode space code points are outside the model). -/
def jsIsSpace (c : Char) : Bool :=
  c = ' ' ∨ c = '\t' ∨ c = '\n' ∨ c = '\r'

/-- A run of decimal digits read as a natural number; `none` when any
character is not a digit. -/
def digitsToNat (l : List Char) : Option Nat :=
  l.foldl (fun acc c =>
    match acc with
    | none => none
    | some a => if c.isDigit then some (a * 10 + (c.toNat - 48)) else none)
    (some 0)

/-- JS ToNumber on a string, for the string forms inside the model: after
trimming whitespace, the empty string converts to 0 and an optionally signed
run of decimal digits converts to that integer ("100" is 100, a bare sign is
NaN).  Fractional, exponent, hex/octal/binary and Infinity literals are
outside the model and mapped to NaN (`none`); no theorem quantifies over
them. -/
def strToNumber (s : String) : Option Int :=
  let l := ((s.data.dropWhile jsIsSpace).reverse.dropWhile jsIsSpace).reverse
  match l with
  | [] => some 0
  | c :: rest =>
      if c = '+' then
        if rest.isEmpty then none else (digitsToNat rest).map (fun d => (d : Int))
      else if c = '-' then
        if rest.isEmpty then none else (digitsToNat rest).map (fun d => -(d : Int))
      else (digitsToNat l).map (fun d => (d : Int))

/-- ToNumber of a property value: numbers pass through, strings are coerced
(see `strToNumber`). -/
def jsToNumber : Val → Option Int
  | .num n => some n
  | .str s => strToNumber s

/-- Whether `needle` occurs as a contiguous substring of `hay` (JS `includes`). -/
def listIncludes (pat : List Char) : List Char → Bool
  | [] => pat.isEmpty
  | c :: rest => pat.isPrefixOf (c :: rest) || listIncludes pat rest

/-- String containment, `hay.includes(pat)`. -/
def strIncludes (hay pat : String) : Bool :=
  listIncludes pat.data hay.data

/-- Model of `categorizeEvent` (part_000 lines 55-71): case-insensitive keyword match,
fitness before ecommerce before navigation before error before user. -/
def categorizeEvent (eventName : String) : String :=
  let l := lowerStr eventName
  if strIncludes l "workout" || strIncludes l "training" || strIncludes l "exercise" then
    "fitness"
  else if strIncludes l "purchase" || strIncludes l "payment" || strIncludes l "subscription" then
    "ecommerce"
  else if strIncludes l "page" || strIncludes l "view" || strIncludes l "navigate" then
    "navigation"
  else if strIncludes l "error" || strIncludes l "crash" || strIncludes l "fail" then
    "error"
  else if strIncludes l "identify" || strIncludes l "login" || strIncludes l "signup" then
    "user"
  else
    "general"

/-- Model of `detectPlatform` (part_000 lines 74-93).  A truthy `$os` has
`.toLowerCase()` called on it, so a truthy non-string `$os` throws a
TypeError (which unwinds to the catch-all); a string `$os` that matches no
OS keyword falls through to the browser/source checks, exactly as the JS
`if` chain does. -/
def detectPlatform (properties : Props) : Except Failure String :=
  let fallthru : String :=
    if truthyO (pget "$browser" properties) then "web"
    else if pget "Source" properties = some (.str "SERVER")
         || pget "source" properties = some (.str "server") then "server"
    else "unknown"
  match pget "$os" properties with
  | some (.num n) =>
      if n ≠ 0 then .error .typeError else .ok fallthru
  | some (.str os) =>
      if os = "" then .ok fallthru
      else
        let osL := lowerStr os
        if strIncludes osL "ios" || strIncludes osL "android" then .ok "mobile"
        else if strIncludes osL "mac" || strIncludes osL "windows" || strIncludes osL "linux" then
          .ok (if truthyO (pget "$browser" properties) then "web" else "desktop")
        else .ok fallthru
  | none => .ok fallthru

/-- Model of `extractCountryCode` (part_000 lines 96-101). -/
def extractCountryCode (properties : Props) : Option Val :=
  jsOr (pget "$country_code" properties)
    (jsOr (pget "country_code" properties)
      (orNull (pget "country" properties)))

/-- The fixed reserved-key set removed by `sanitizeProperties`
(part_000 lines 105-109). -/
def systemFields : List String :=
  ["token", "distinct_id", "$user_id", "$session_id", "time",
   "$os", "$browser", "$browser_version", "$device", "$country_code",
   "country_code", "country", "$anon_distinct_id"]

/-- Model of `sanitizeProperties` (part_000 lines 104-115): delete every reserved key. -/
def sanitizeProperties (properties : Props) : Props :=
  properties.filter (fun kv => decide (kv.1 ∉ systemFields))

/-- Model of `extractDeviceId` (part_000 lines 118-123). -/
def extractDeviceId (properties : Props) : Option Val :=
  jsOr (pget "$device_id" properties)
    (jsOr (pget "device_id" properties)
      (orNull (pget "$insert_id" properties)))

/-- Model of `new Date(properties.time * 1000)`: `undefined` and
non-numeric strings multiply to NaN (an Invalid Date, which throws when the
INSERT serializes it), and a JS Date is valid only for milliseconds within
±8.64e15.  Integer arithmetic is exact here: every in-range product lies
below 2^53, and an out-of-range product stays out of range after double
rounding, so the model and the double computation always agree on
validity. -/
def jsTimestamp (v : Option Val) : Option Int :=
  match v with
  | none => none
  | some v =>
      match jsToNumber v with
      | none => none
      | some t =>
          if (t * 1000).natAbs ≤ 8640000000000000 then some (t * 1000) else none

/-- The `time` values on which `new Date(time * 1000)` certainly yields an
Invalid Date: an absent `time` (NaN milliseconds) or an integer `time` whose
millisecond value falls outside the ±8.64e15 range a JS Date can represent.
String times undergo ToNumber coercion first and are not covered here. -/
def timeCertainlyInvalid : Option Val → Prop
  | none => True
  | some (.num t) => 8640000000000000 < (t * 1000).natAbs
  | some (.str _) => False

/-- A decoded `/track` payload: `{event, properties}` (either part may be
absent in a malformed payload). -/
structure EventData where
  event : Option String
  properties : Props
deriving DecidableEq, Repr

/-- The record produced by `extractEventData` before the analytics INSERT. -/
structure Transformed where
  event_name : String
  event_category : String
  event_detail : Option String
  distinct_id : Option Val
  user_id : Option Val
  session_id : Option Val
  platform : String
  country_code : Option Val
  timestamp : Option Int
  properties : Props
deriving DecidableEq, Repr

/-- Model of `extractEventData` (part_000 lines 34-52).  When `event` is absent the JS
function throws a TypeError inside `categorizeEvent` (`undefined.toLowerCase()`),
and `detectPlatform` may throw on a truthy non-string `$os`; both the
identify and the non-identify branch read `properties.distinct_id`. -/
def extractEventData (eventData : EventData) (isIdentify : Bool) :
    Except Failure Transformed :=
  match eventData.event with
  | none => .error .typeError
  | some ev =>
      let properties := eventData.properties
      match detectPlatform properties with
      | .error f => .error f
      | .ok platform => .ok {
        event_name := ev
        event_category := categorizeEvent ev
        event_detail := none
        distinct_id := if isIdentify then pget "distinct_id" properties
                       else pget "distinct_id" properties
        user_id := jsOr (pget "$user_id" properties) (pget "distinct_id" properties)
        session_id := orNull (pget "$session_id" properties)
        platform := platform
        country_code := orNull (extractCountryCode properties)
        timestamp := jsTimestamp (pget "time" properties)
        properties := sanitizeProperties properties }

/-- A row of the `analytics` events table. -/
structure EventRow where
  event_name : String
  event_category : String
  event_detail : Option String
  distinct_id : String
  user_id : Option String
  session_id : Option String
  platform : String
  country_code : Option String
  timestamp : Int
  properties : Props
deriving DecidableEq, Repr

/-- A row of the `analytics_users` identity table (`distinct_id` is UNIQUE
NOT NULL; `device_ids` is a nullable JSONB array). -/
structure UserRow where
  distinct_id : String
  user_id : Option String
  anonymous_id : Option String
  email : Option String
  first_name : Option String
  last_name : Option String
  properties : Option Props
  user_state : String
  device_ids : Option (List String)
  first_seen : Int
  last_seen : Int
  identified_at : Option Int
deriving DecidableEq, Repr

/-- A row of the `identity_mappings` ledger; `confidence_score` is the
DECIMAL(3,2) column in hundredths (the DEFAULT 1.0 is 100). -/
structure MappingRow where
  canonical_user_id : String
  mapped_id : String
  mapping_type : String
  source : String
  confidence_score : Nat
  events_stitched : Nat
  first_seen : Int
  last_seen : Int
deriving DecidableEq, Repr

/-- The three tables the router mutates. -/
structure DB where
  analytics : List EventRow
  users : List UserRow
  mappings : List MappingRow
deriving DecidableEq, Repr

/-- The `device_ids` CASE expression in the ON CONFLICT clause of `upsertUser`:
append the incoming array only when it differs from and is not contained in
the stored one.  A SQL NULL `device_ids` makes the comparison NULL, so the
column is left NULL. -/
def mergeDeviceIds (old : Option (List String)) (incoming : List String) :
    Option (List String) :=
  match old with
  | none => none
  | some o =>
      if incoming ≠ o ∧ ¬ (∀ x ∈ incoming, x ∈ o) then some (o ++ incoming)
      else some o

/-- Model of `upsertUser` (part_000 lines 126-150): atomic insert-or-merge on
`analytics_users` keyed by `distinct_id`; a missing distinct id is a NOT NULL
violation. -/
def upsertUser (db : DB) (distinctId : Option Val) (userData : Props)
    (now : Int) : Except Failure DB :=
  let deviceId := extractDeviceId userData
  let deviceIds : List String :=
    match deviceId with
    | some v => [valText v]
    | none => []
  match distinctId with
  | none => .error .notNullViolation
  | some dv =>
      let d := valText dv
      if db.users.any (fun u => u.distinct_id = d) then
        .ok { db with users := db.users.map (fun u =>
          if u.distinct_id = d then
            { u with last_seen := now,
                     device_ids := mergeDeviceIds u.device_ids deviceIds }
          else u) }
      else
        .ok { db with users := db.users ++ [{
          distinct_id := d, user_id := none, anonymous_id := none,
          email := none, first_name := none, last_name := none,
          properties := none, user_state := "anonymous",
          device_ids := some deviceIds,
          first_seen := now, last_seen := now, identified_at := none }] }

/-- SQL `a != b` between two nullable values: true only when both are
non-null and differ. -/
def sqlNeq : Option String → Option String → Bool
  | some a, some b => a ≠ b
  | _, _ => false

/-- The WHERE clause shared by the count and the bulk UPDATE of
`stitchIdentity`: `distinct_id = $anon AND (user_id IS NULL OR user_id != $user)`
(a NULL parameter matches nothing on the equality and falsifies `!=`). -/
def stitchHit (anonymousId userId : Option String) (r : EventRow) : Bool :=
  anonymousId = some r.distinct_id ∧ (r.user_id = none ∨ sqlNeq r.user_id userId)

/-- The `INSERT ... ON CONFLICT (canonical_user_id, mapped_id, mapping_type)
DO UPDATE` pattern used for both ledger writes of `stitchIdentity`
(part_000 lines 172-193).  The first write carries the stitched-event count
as `delta`; the second carries 0 (its INSERT leaves the column at DEFAULT 0
and its DO UPDATE does not touch it).  NULL key parts are NOT NULL
violations. -/
def mappingUpsert (db : DB) (canonical mapped : Option String)
    (mappingType source : String) (delta : Nat) (now : Int) :
    Except Failure DB :=
  match canonical, mapped with
  | some c, some m =>
      if db.mappings.any (fun r =>
          r.canonical_user_id = c ∧ r.mapped_id = m ∧ r.mapping_type = mappingType) then
        .ok { db with mappings := db.mappings.map (fun r =>
          if r.canonical_user_id = c ∧ r.mapped_id = m ∧ r.mapping_type = mappingType then
            { r with last_seen := now, events_stitched := r.events_stitched + delta }
          else r) }
      else
        .ok { db with mappings := db.mappings ++ [{
          canonical_user_id := c, mapped_id := m, mapping_type := mappingType,
          source := source, confidence_score := 100, events_stitched := delta,
          first_seen := now, last_seen := now }] }
  | _, _ => .error .notNullViolation

/-- Model of `stitchIdentity` (part_000 lines 153-197): count the events about to
change, bulk-rewrite their `user_id`, record the `(userId, anonymousId)`
ledger edge with that count, and, when a distinct truthy device id is
present, record a second edge for it with no count. -/
def stitchIdentity (db : DB) (anonymousId userId deviceId : Option String)
    (now : Int) : Except Failure (Nat × DB) := do
  let eventsToStitch := (db.analytics.filter (stitchHit anonymousId userId)).length
  let analytics2 := db.analytics.map (fun r =>
    if stitchHit anonymousId userId r then { r with user_id := userId } else r)
  let db1 ← mappingUpsert { db with analytics := analytics2 }
    userId anonymousId "device_id" "identify_call" eventsToStitch now
  let db2 ←
    if deviceId.any (fun d => d ≠ "") ∧ deviceId ≠ anonymousId then
      mappingUpsert db1 userId deviceId "device_id" "identify_call" 0 now
    else
      pure db1
  pure (eventsToStitch, db2)

/-- The inline conflict-detection SELECT of `handleIdentify`
(part_000 lines 208-214), named `findLatestMapping` in the spec: among the rows
matching `mapped_id` and `mapping_type`, `ORDER BY confidence_score DESC
LIMIT 1`.  The SQL has no tie-break, so among equal-confidence rows the
result is the first matching row in table order. -/
def firstMaxByConf : List MappingRow → Option MappingRow
  | [] => none
  | r :: rs =>
      match firstMaxByConf rs with
      | none => some r
      | some m => if m.confidence_score > r.confidence_score then some m else some r

/-- See `firstMaxByConf`. -/
def findLatestMapping (rows : List MappingRow) (mappedId : Option String)
    (mappingType : String) : Option MappingRow :=
  firstMaxByConf (rows.filter (fun r =>
    mappedId = some r.mapped_id ∧ r.mapping_type = mappingType))

/-- What `handleIdentify` returns to the router. -/
structure IdentifyResult where
  eventsStitched : Nat
  identityConflict : Bool
deriving DecidableEq, Repr

/-- Model of `handleIdentify` (part_000 lines 200-272): detect a conflicting prior
mapping, stitch, then update the `analytics_users` row found under the
anonymous id (renaming it to the `distinct_id` of the payload) or insert a fresh
identified row.  Both the rename and the insert are subject to the UNIQUE
NOT NULL constraint on `distinct_id`. -/
def handleIdentify (db : DB) (eventData : EventData) (now : Int) :
    Except Failure (IdentifyResult × DB) := do
  let properties := eventData.properties
  let newDistinctId := (pget "distinct_id" properties).map valText
  let anonymousId := (pget "$anon_distinct_id" properties).map valText
  let userId := (pget "$user_id" properties).map valText
  let deviceId := (pget "$device_id" properties).map valText
  let existingMapping := findLatestMapping db.mappings anonymousId "device_id"
  let identityConflict :=
    match existingMapping with
    | some m => decide (some m.canonical_user_id ≠ userId)
    | none => false
  let (eventsStitched, db1) ← stitchIdentity db anonymousId userId deviceId now
  match db1.users.find? (fun u => anonymousId = some u.distinct_id) with
  | some anonymousUser =>
      let deviceIds := anonymousUser.device_ids.getD []
      let deviceIds2 :=
        match deviceId with
        | some d => if d ≠ "" ∧ d ∉ deviceIds then deviceIds ++ [d] else deviceIds
        | none => deviceIds
      match newDistinctId with
      | none => .error .notNullViolation
      | some nd =>
          if anonymousId ≠ some nd ∧ db1.users.any (fun u => u.distinct_id = nd) then
            .error .uniqueViolation
          else
            .ok ({ eventsStitched := eventsStitched,
                   identityConflict := identityConflict },
              { db1 with users := db1.users.map (fun u =>
                if anonymousId = some u.distinct_id then
                  { u with distinct_id := nd, user_id := userId,
                           identified_at := some now, user_state := "identified",
                           device_ids := some deviceIds2, last_seen := u.last_seen }
                else u) })
  | none =>
      let deviceIds : List String :=
        match deviceId with
        | some d => if d ≠ "" then [d] else []
        | none => []
      match newDistinctId with
      | none => .error .notNullViolation
      | some nd =>
          if db1.users.any (fun u => u.distinct_id = nd) then
            .error .uniqueViolation
          else
            .ok ({ eventsStitched := eventsStitched,
                   identityConflict := identityConflict },
              { db1 with users := db1.users ++ [{
                distinct_id := nd, user_id := userId, anonymous_id := anonymousId,
                email := none, first_name := none, last_name := none,
                properties := none, user_state := "identified",
                device_ids := some deviceIds,
                first_seen := now, last_seen := now, identified_at := some now }] })

/-- The analytics INSERT at the end of `/track` (part_000 lines 315-336):
`event_name`, `distinct_id` and `timestamp` are NOT NULL (an undefined
parameter or an invalid date makes the statement throw); RETURNING id is the
new row count. -/
def insertEventRow (db : DB) (t : Transformed) : Except Failure (Nat × DB) :=
  match t.distinct_id, t.timestamp with
  | some dv, some ts =>
      let row : EventRow := {
        event_name := t.event_name, event_category := t.event_category,
        event_detail := t.event_detail, distinct_id := valText dv,
        user_id := t.user_id.map valText,
        session_id := t.session_id.map valText,
        platform := t.platform,
        country_code := t.country_code.map valText,
        timestamp := ts, properties := t.properties }
      .ok (db.analytics.length + 1, { db with analytics := db.analytics ++ [row] })
  | _, _ => .error .notNullViolation

/-- The `/track` response: success with the new row id and the resolved
device id, or the uniform 500 `Internal server error` body sent when the
transaction was rolled back.  (The only 400 the endpoint produces is for a
missing `data` query parameter, which is upstream of the decoded payload
modelled here.) -/
inductive TrackResult where
  | ok (id : Nat) (device_id : String)
  | serverFailure
deriving DecidableEq, Repr

/-- The BEGIN..COMMIT body of `/track` (part_000 lines 300-336) on the
payload whose `$device_id` has already been defaulted: dispatch on the
`$identify` sentinel to `handleIdentify` or `upsertUser`, then extract and
insert the event row. -/
def trackTx (db : DB) (eventData2 : EventData) (now : Int) :
    Except Failure (Nat × DB) := do
  let isIdentify := eventData2.event = some "$identify"
  let db1 ←
    if isIdentify then do
      let (_, db1) ← handleIdentify db eventData2 now
      pure db1
    else
      upsertUser db (pget "distinct_id" eventData2.properties)
        eventData2.properties now
  let transformedData ← extractEventData eventData2 isIdentify
  insertEventRow db1 transformedData

/-- The `/track` handler (part_000 lines 275-372) on a decoded payload:
default `$device_id` from the request-scoped device id, run the transaction
body, and on any thrown step roll back and answer the uniform 500. -/
def trackHandler (db : DB) (eventData : EventData) (reqDeviceId : String)
    (now : Int) : TrackResult × DB :=
  let eventData2 :=
    if truthyO (pget "$device_id" eventData.properties) then eventData
    else { eventData with
           properties := setProp eventData.properties "$device_id" (.str reqDeviceId) }
  match trackTx db eventData2 now with
  | .ok (id, db2) => (.ok id reqDeviceId, db2)
  | .error _ => (.serverFailure, db)

/-- A decoded `/engage` payload: `{$distinct_id, $set}`. -/
structure ProfilePayload where
  distinct_id : Option Val
  set : Props
deriving DecidableEq, Repr

/-- The local variable `email` of `/engage`: `setData.$email || setData.email`. -/
def engageEmail (setData : Props) : Option Val :=
  jsOr (pget "$email" setData) (pget "email" setData)

/-- The local variable `firstName` of `/engage`. -/
def engageFirstName (setData : Props) : Option Val :=
  jsOr (pget "$first_name" setData) (pget "first_name" setData)

/-- The local variable `lastName` of `/engage`. -/
def engageLastName (setData : Props) : Option Val :=
  jsOr (pget "$last_name" setData) (pget "last_name" setData)

/-- The local variable `customProperties` of `/engage`: `$set` with the six standard
profile keys deleted. -/
def engageCustom (setData : Props) : Props :=
  setData.filter (fun kv => decide (kv.1 ∉
    ["$email", "email", "$first_name", "first_name", "$last_name", "last_name"]))

/-- SQL `COALESCE(param, column)`. -/
def coalesce {α : Type} : Option α → Option α → Option α
  | some x, _ => some x
  | none, b => b

/-- The `/engage` response: success or the uniform 500 body. -/
inductive EngageResult where
  | ok
  | serverFailure
deriving DecidableEq, Repr

/-- The `/engage` handler (part_000 lines 375-511): for an existing row,
per-column COALESCE update (the JSONB `properties` column is replaced
wholesale when any custom properties are supplied, kept when none are);
otherwise insert a fresh profile row.  Both branches then insert a
`$profile_set` event into `analytics` inside the same transaction. -/
def engageHandler (db : DB) (payload : ProfilePayload) (now : Int) :
    EngageResult × DB :=
  let distinctIdParam := payload.distinct_id.map valText
  let setData := payload.set
  let email := (engageEmail setData).map valText
  let firstName := (engageFirstName setData).map valText
  let lastName := (engageLastName setData).map valText
  let customProperties := engageCustom setData
  let propsParam : Option Props :=
    if customProperties.length > 0 then some customProperties else none
  let profileEvent (detail : String) (d : String) : EventRow := {
    event_name := "$profile_set", event_category := "user",
    event_detail := some detail, distinct_id := d, user_id := some d,
    session_id := none, platform := "api", country_code := none,
    timestamp := now, properties := setData }
  let outcome : Except Failure DB :=
    if db.users.any (fun u => distinctIdParam = some u.distinct_id) then
      let users2 := db.users.map (fun u =>
        if distinctIdParam = some u.distinct_id then
          { u with email := coalesce email u.email,
                   first_name := coalesce firstName u.first_name,
                   last_name := coalesce lastName u.last_name,
                   properties := coalesce propsParam u.properties,
                   last_seen := now }
        else u)
      match distinctIdParam with
      | some d =>
          .ok { db with
                users := users2,
                analytics := db.analytics ++ [profileEvent "Profile update" d] }
      | none => .error .notNullViolation
    else
      match distinctIdParam with
      | some d =>
          .ok { db with
            users := db.users ++ [{
              distinct_id := d, user_id := none, anonymous_id := none,
              email := email, first_name := firstName, last_name := lastName,
              properties := propsParam, user_state := "anonymous",
              device_ids := none,
              first_seen := now, last_seen := now, identified_at := none }],
            analytics := db.analytics ++ [profileEvent "Profile created" d] }
      | none => .error .notNullViolation
  match outcome with
  | .ok db2 => (.ok, db2)
  | .error _ => (.serverFailure, db)

/-- Spec-side rendering of the category policy (spec 4.1): five fixed keyword
sets in the fixed priority order fitness, ecommerce, navigation, error,
user-lifecycle. -/
def keywordTable : List (String × List String) :=
  [("fitness", ["workout", "training", "exercise"]),
   ("ecommerce", ["purchase", "payment", "subscription"]),
   ("navigation", ["page", "view", "navigate"]),
   ("error", ["error", "crash", "fail"]),
   ("user", ["identify", "login", "signup"])]

/-- Spec-side rendering: first keyword set containing a case-insensitive
substring of the event name wins; no match falls back to `general`. -/
def firstKeywordMatch (s : String) : List (String × List String) → String
  | [] => "general"
  | (cat, kws) :: rest =>
      if kws.any (fun k => strIncludes (lowerStr s) k) then cat
      else firstKeywordMatch s rest

/-- Spec-side category derivation, to be compared with `categorizeEvent`. -/
def specCategorize (s : String) : String :=
  firstKeywordMatch s keywordTable

/- Concrete scenarios used to settle the claims. -/

/-- A historical anonymous event for the stitching scenarios. -/
def c3Event : EventRow :=
  ⟨"Page View", "navigation", none, "anon-1", none, none, "web", none, 1000, []⟩

/-- The `analytics_users` row created by earlier anonymous events. -/
def c3AnonRow : UserRow :=
  ⟨"anon-1", none, none, none, none, none, none, "anonymous", some ["dev-1"], 1, 1, none⟩

/-- A canonical identify payload: after login the client reports
`distinct_id = $user_id = "user-9"` with `$anon_distinct_id = "anon-1"`. -/
def c3IdentifyPayload : EventData :=
  ⟨some "$identify",
   [("distinct_id", .str "user-9"), ("$anon_distinct_id", .str "anon-1"),
    ("$user_id", .str "user-9"), ("$device_id", .str "dev-1"), ("time", .num 10)]⟩

/-- The store before the first identify call. -/
def c3Start : DB := ⟨[c3Event], [c3AnonRow], []⟩

/-- The store after the first identify call (the anonymous row was renamed to
`user-9`, the event was stitched, two ledger edges were recorded). -/
def c3AfterFirst : DB :=
  ⟨[{ c3Event with user_id := some "user-9" }],
   [⟨"user-9", some "user-9", none, none, none, none, none, "identified",
     some ["dev-1"], 1, 1, some 10⟩],
   [⟨"user-9", "anon-1", "device_id", "identify_call", 100, 1, 10, 10⟩,
    ⟨"user-9", "dev-1", "device_id", "identify_call", 100, 0, 10, 10⟩]⟩

/-- First identify of the conflict scenario (no separate device id). -/
def c4FirstPayload : EventData :=
  ⟨some "$identify",
   [("distinct_id", .str "user-9"), ("$anon_distinct_id", .str "anon-1"),
    ("$user_id", .str "user-9"), ("time", .num 10)]⟩

/-- Conflicting second identify: the same anonymous id is re-pointed to
`user-42`. -/
def c4SecondPayload : EventData :=
  ⟨some "$identify",
   [("distinct_id", .str "user-42"), ("$anon_distinct_id", .str "anon-1"),
    ("$user_id", .str "user-42"), ("time", .num 20)]⟩

/-- The store after running `c4FirstPayload` on an empty store. -/
def c4AfterFirst : DB :=
  ⟨[],
   [⟨"user-9", some "user-9", some "anon-1", none, none, none, none,
     "identified", some [], 1, 1, some 1⟩],
   [⟨"user-9", "anon-1", "device_id", "identify_call", 100, 0, 1, 1⟩]⟩

/-- Three historical events: two anonymous ones for `anon-1`, one for an
unrelated visitor. -/
def c5Start : DB :=
  ⟨[⟨"Workout Started", "fitness", none, "anon-1", none, none, "web", none, 1000, []⟩,
    ⟨"Page View", "navigation", none, "anon-1", none, none, "web", none, 2000, []⟩,
    ⟨"Page View", "navigation", none, "other", none, none, "web", none, 3000, []⟩],
   [], []⟩

/-- A profile row whose stored custom properties hold two keys. -/
def c7Row : UserRow :=
  ⟨"u1", none, none, none, none, none,
   some [("plan", .str "pro"), ("color", .str "red")],
   "anonymous", none, 1, 1, none⟩

/-- A profile update that supplies only one custom key. -/
def c7Payload : ProfilePayload := ⟨some (.str "u1"), [("color", .str "blue")]⟩

/-- The store holding `c7Row`. -/
def c7Start : DB := ⟨[], [c7Row], []⟩

/-- An older mapping edge for `anon-1` (confidence 1.0, last affirmed at 10). -/
def c8EdgeOld : MappingRow :=
  ⟨"user-A", "anon-1", "device_id", "identify_call", 100, 3, 10, 10⟩

/-- A more recently affirmed mapping edge for `anon-1` with the same
confidence (last affirmed at 99). -/
def c8EdgeNew : MappingRow :=
  ⟨"user-B", "anon-1", "device_id", "identify_call", 100, 4, 99, 99⟩

/- Supporting lemmas. -/

theorem pget_sanitizeProperties (properties : Props) (k : String)
    (hk : k ∈ systemFields) : pget k (sanitizeProperties properties) = none := by
  induction properties with
  | nil => rfl
  | cons kv rest ih =>
      by_cases hmem : kv.1 ∈ systemFields
      · simpa [sanitizeProperties, List.filter_cons, hmem] using ih
      · have hne : kv.1 ≠ k := fun h => hmem (h ▸ hk)
        simpa [sanitizeProperties, List.filter_cons, hmem, pget, hne] using ih

theorem firstMaxByConf_cons_ne_none (r : MappingRow) (rs : List MappingRow) :
    firstMaxByConf (r :: rs) ≠ none := by
  rw [firstMaxByConf]
  cases firstMaxByConf rs with
  | none => simp
  | some m => by_cases h : m.confidence_score > r.confidence_score <;> simp [h]

theorem firstMaxByConf_spec (l : List MappingRow) (m : MappingRow)
    (h : firstMaxByConf l = some m) :
    m ∈ l ∧ ∀ x ∈ l, x.confidence_score ≤ m.confidence_score := by
  induction l generalizing m with
  | nil => simp [firstMaxByConf] at h
  | cons r rs ih =>
      rw [firstMaxByConf] at h
      cases hr : firstMaxByConf rs with
      | none =>
          rw [hr] at h
          dsimp only at h
          cases rs with
          | nil =>
              injection h with h
              subst h
              exact ⟨List.mem_cons_self _ _, by simp⟩
          | cons r2 rs2 => exact absurd hr (firstMaxByConf_cons_ne_none r2 rs2)
      | some mm =>
          rw [hr] at h
          dsimp only at h
          obtain ⟨hmem, hmax⟩ := ih mm hr
          by_cases hgt : mm.confidence_score > r.confidence_score
          · rw [if_pos hgt] at h
            injection h with h
            subst h
            refine ⟨List.mem_cons_of_mem _ hmem, ?_⟩
            intro x hx
            rcases List.mem_cons.mp hx with hx | hx
            · exact hx ▸ Nat.le_of_lt hgt
            · exact hmax x hx
          · rw [if_neg hgt] at h
            injection h with h
            subst h
            refine ⟨List.mem_cons_self _ _, ?_⟩
            intro x hx
            rcases List.mem_cons.mp hx with hx | hx
            · exact hx ▸ Nat.le_refl _
            · exact Nat.le_trans (hmax x hx) (Nat.le_of_not_lt hgt)

theorem pget_setProp_ne (p : Props) (k k2 : String) (v : Val) (h : k2 ≠ k) :
    pget k (setProp p k2 v) = pget k p := by
  induction p with
  | nil => simp [setProp, pget, h]
  | cons kv rest ih =>
      obtain ⟨k1, v1⟩ := kv
      by_cases hk : k1 = k2
      · subst hk
        have hne : k1 ≠ k := fun hh => h (hh ▸ rfl)
        simp [setProp, pget, hne]
      · simp [setProp, hk, pget, ih]

theorem detectPlatform_setProp (p : Props) (v : Val) :
    detectPlatform (setProp p "$device_id" v) = detectPlatform p := by
  have h1 := pget_setProp_ne p "$os" "$device_id" v (by decide)
  have h2 := pget_setProp_ne p "$browser" "$device_id" v (by decide)
  have h3 := pget_setProp_ne p "Source" "$device_id" v (by decide)
  have h4 := pget_setProp_ne p "source" "$device_id" v (by decide)
  simp only [detectPlatform, h1, h2, h3, h4]

theorem except_bind_ok {α β : Type} (e : Except Failure α)
    (f : α → Except Failure β) (b : β) (h : (e >>= f) = .ok b) :
    ∃ a, e = .ok a ∧ f a = .ok b := by
  cases e with
  | ok a => exact ⟨a, rfl, h⟩
  | error x => simp [Bind.bind, Except.bind] at h

theorem extractEventData_ok (e : EventData) (b : Bool) (t : Transformed)
    (h : extractEventData e b = .ok t) :
    e.event ≠ none ∧ t.distinct_id = pget "distinct_id" e.properties ∧
    t.timestamp = jsTimestamp (pget "time" e.properties) ∧
    t.user_id = jsOr (pget "$user_id" e.properties) (pget "distinct_id" e.properties) := by
  cases he : e.event with
  | none => simp [extractEventData, he] at h
  | some ev =>
      simp only [extractEventData, he] at h
      cases hp : detectPlatform e.properties with
      | error f =>
          simp only [hp] at h
          exact Except.noConfusion h
      | ok platform =>
          simp only [hp] at h
          injection h with h
          subst h
          refine ⟨by simp [he], ?_, rfl, rfl⟩
          cases b <;> rfl

theorem insertEventRow_okInv (db : DB) (t : Transformed) (n : Nat) (db2 : DB)
    (h : insertEventRow db t = .ok (n, db2)) :
    t.distinct_id ≠ none ∧ t.timestamp ≠ none := by
  cases hd : t.distinct_id with
  | none => simp [insertEventRow, hd] at h
  | some dv =>
      cases ht : t.timestamp with
      | none => simp [insertEventRow, hd, ht] at h
      | some ts => exact ⟨by simp [hd], by simp [ht]⟩

theorem insertEventRow_some (db : DB) (t : Transformed) (dv : Val) (ts : Int)
    (hd : t.distinct_id = some dv) (ht : t.timestamp = some ts) :
    ∃ row, insertEventRow db t =
        .ok (db.analytics.length + 1, { db with analytics := db.analytics ++ [row] }) ∧
      row.distinct_id = valText dv ∧ row.user_id = t.user_id.map valText :=
  ⟨⟨t.event_name, t.event_category, t.event_detail, valText dv,
    t.user_id.map valText, t.session_id.map valText, t.platform,
    t.country_code.map valText, ts, t.properties⟩,
   by simp [insertEventRow, hd, ht], rfl, rfl⟩

theorem upsertUser_some (db : DB) (dv : Val) (userData : Props) (now : Int) :
    ∃ db1, upsertUser db (some dv) userData now = .ok db1 ∧
      db1.analytics = db.analytics ∧ db1.mappings = db.mappings := by
  by_cases hex : ∃ x ∈ db.users, x.distinct_id = valText dv
  · exact ⟨_, by simp [upsertUser, hex]; rfl, by rfl, by rfl⟩
  · exact ⟨_, by simp [upsertUser, hex]; rfl, by rfl, by rfl⟩

theorem except_ok_bind {α β : Type} (a : α) (f : α → Except Failure β) :
    (Except.ok a >>= f) = f a := rfl

theorem trackTx_ok_needs_valid (db : DB) (e2 : EventData) (now : Int)
    (v : Nat × DB) (h : trackTx db e2 now = .ok v) :
    e2.event ≠ none ∧ pget "distinct_id" e2.properties ≠ none ∧
    jsTimestamp (pget "time" e2.properties) ≠ none := by
  have main : ∀ (db1 : DB),
      (extractEventData e2 (decide (e2.event = some "$identify")) >>= fun tr =>
        insertEventRow db1 tr) = .ok v →
      e2.event ≠ none ∧ pget "distinct_id" e2.properties ≠ none ∧
      jsTimestamp (pget "time" e2.properties) ≠ none := by
    intro db1 hh
    obtain ⟨tr, h3, h4⟩ := except_bind_ok _ _ _ hh
    obtain ⟨hev, hdid, hts, _⟩ := extractEventData_ok _ _ _ h3
    obtain ⟨hnd, hnt⟩ := insertEventRow_okInv db1 tr v.1 v.2 h4
    exact ⟨hev, by rw [← hdid]; exact hnd, by rw [← hts]; exact hnt⟩
  rw [trackTx] at h
  by_cases hid : e2.event = some "$identify"
  · rw [if_pos hid] at h
    obtain ⟨pr, h1, h2⟩ := except_bind_ok _ _ _ h
    obtain ⟨r1, db1⟩ := pr
    exact main db1 h2
  · rw [if_neg hid] at h
    obtain ⟨db1, h1, h2⟩ := except_bind_ok _ _ _ h
    exact main db1 h2

theorem trackTx_plain_spec (db : DB) (n : String) (props2 : Props) (now : Int)
    (dv : Val) (ts : Int) (p : String)
    (hn : n ≠ "$identify")
    (hu : pget "$user_id" props2 = none)
    (hdist : pget "distinct_id" props2 = some dv)
    (ht : jsTimestamp (pget "time" props2) = some ts)
    (hplat : detectPlatform props2 = .ok p) :
    ∃ row db2, trackTx db ⟨some n, props2⟩ now = .ok (db.analytics.length + 1, db2) ∧
      db2.analytics = db.analytics ++ [row] ∧
      row.distinct_id = valText dv ∧ row.user_id = some (valText dv) := by
  obtain ⟨db1, hup, hana, hmap⟩ := upsertUser_some db dv props2 now
  have hnid : ¬ ((⟨some n, props2⟩ : EventData).event = some "$identify") := by
    intro hh
    exact hn (Option.some.inj hh)
  have hrec : extractEventData ⟨some n, props2⟩
      (decide ((⟨some n, props2⟩ : EventData).event = some "$identify")) =
      .ok {
        event_name := n
        event_category := categorizeEvent n
        event_detail := none
        distinct_id := pget "distinct_id" props2
        user_id := jsOr (pget "$user_id" props2) (pget "distinct_id" props2)
        session_id := orNull (pget "$session_id" props2)
        platform := p
        country_code := orNull (extractCountryCode props2)
        timestamp := jsTimestamp (pget "time" props2)
        properties := sanitizeProperties props2 } := by
    simp only [extractEventData, hplat]
    congr 1
    split <;> rfl
  obtain ⟨row, hins, hrowd, hrowu⟩ := insertEventRow_some db1
    { event_name := n
      event_category := categorizeEvent n
      event_detail := none
      distinct_id := pget "distinct_id" props2
      user_id := jsOr (pget "$user_id" props2) (pget "distinct_id" props2)
      session_id := orNull (pget "$session_id" props2)
      platform := p
      country_code := orNull (extractCountryCode props2)
      timestamp := jsTimestamp (pget "time" props2)
      properties := sanitizeProperties props2 }
    dv ts (by simpa using hdist) ht
  refine ⟨row, { db1 with analytics := db1.analytics ++ [row] }, ?_, ?_, hrowd, ?_⟩
  · have hup2 : upsertUser db (pget "distinct_id" props2) props2 now = .ok db1 := by
      rw [hdist]; exact hup
    rw [trackTx, if_neg hnid]
    simp only [hup2, except_ok_bind, hrec, hins, hana]
  · show db1.analytics ++ [row] = db.analytics ++ [row]
    rw [hana]
  · rw [hrowu, hu, hdist]
    simp [jsOr, truthyO]

theorem mappingUpsert_spec (db : DB) (c m : String) (mappingType source : String)
    (delta : Nat) (now : Int) :
    ∃ db2, mappingUpsert db (some c) (some m) mappingType source delta now = .ok db2 ∧
      db2.analytics = db.analytics ∧ db2.users = db.users ∧
      (∀ r2 ∈ db2.mappings,
        (∃ r ∈ db.mappings, r2.canonical_user_id = r.canonical_user_id ∧
          r2.mapped_id = r.mapped_id ∧ r2.mapping_type = r.mapping_type) ∨
        (r2.canonical_user_id = c ∧ r2.mapped_id = m ∧
          r2.mapping_type = mappingType)) ∧
      (∃ r2 ∈ db2.mappings, r2.canonical_user_id = c ∧ r2.mapped_id = m ∧
        r2.mapping_type = mappingType) := by
  by_cases hex : ∃ r ∈ db.mappings, r.canonical_user_id = c ∧ r.mapped_id = m ∧
      r.mapping_type = mappingType
  · refine ⟨{ db with mappings := db.mappings.map (fun r =>
        if r.canonical_user_id = c ∧ r.mapped_id = m ∧ r.mapping_type = mappingType
        then { r with last_seen := now, events_stitched := r.events_stitched + delta }
        else r) }, ?_, rfl, rfl, ?_, ?_⟩
    · simp [mappingUpsert, hex]
    · intro r2 hr2
      obtain ⟨r, hr, hfr⟩ := List.mem_map.mp hr2
      by_cases hc : r.canonical_user_id = c ∧ r.mapped_id = m ∧
          r.mapping_type = mappingType
      · rw [if_pos hc] at hfr
        exact Or.inl ⟨r, hr, by rw [← hfr], by rw [← hfr], by rw [← hfr]⟩
      · rw [if_neg hc] at hfr
        exact Or.inl ⟨r, hr, by rw [← hfr], by rw [← hfr], by rw [← hfr]⟩
    · obtain ⟨r, hr, hc⟩ := hex
      refine ⟨{ r with last_seen := now, events_stitched := r.events_stitched + delta },
        ?_, hc.1, hc.2.1, hc.2.2⟩
      have hupd : (if r.canonical_user_id = c ∧ r.mapped_id = m ∧
            r.mapping_type = mappingType
          then { r with last_seen := now, events_stitched := r.events_stitched + delta }
          else r) =
          { r with last_seen := now, events_stitched := r.events_stitched + delta } :=
        if_pos hc
      exact hupd ▸ List.mem_map_of_mem _ hr
  · refine ⟨{ db with mappings := db.mappings ++ [{
        canonical_user_id := c, mapped_id := m, mapping_type := mappingType,
        source := source, confidence_score := 100, events_stitched := delta,
        first_seen := now, last_seen := now }] }, ?_, rfl, rfl, ?_, ?_⟩
    · simp [mappingUpsert, hex]
    · intro r2 hr2
      rcases List.mem_append.mp hr2 with hr2 | hr2
      · exact Or.inl ⟨r2, hr2, rfl, rfl, rfl⟩
      · rw [List.mem_singleton.mp hr2]
        exact Or.inr ⟨rfl, rfl, rfl⟩
    · exact ⟨_, List.mem_append_right _ (List.mem_singleton.mpr rfl), rfl, rfl, rfl⟩

theorem stitchIdentity_noDevice (db : DB) (a u : String) (now : Int) :
    ∃ db2, stitchIdentity db (some a) (some u) none now =
        .ok ((db.analytics.filter (stitchHit (some a) (some u))).length, db2) ∧
      db2.analytics = db.analytics.map (fun r =>
        if stitchHit (some a) (some u) r then { r with user_id := some u } else r) ∧
      db2.users = db.users ∧
      (∀ r2 ∈ db2.mappings,
        (∃ r ∈ db.mappings, r2.canonical_user_id = r.canonical_user_id ∧
          r2.mapped_id = r.mapped_id ∧ r2.mapping_type = r.mapping_type) ∨
        (r2.canonical_user_id = u ∧ r2.mapped_id = a ∧
          r2.mapping_type = "device_id")) ∧
      (∃ r2 ∈ db2.mappings, r2.canonical_user_id = u ∧ r2.mapped_id = a ∧
        r2.mapping_type = "device_id") := by
  obtain ⟨db2, hm, hana, husers, hall, hexist⟩ := mappingUpsert_spec
    { db with analytics := db.analytics.map (fun r =>
        if stitchHit (some a) (some u) r then { r with user_id := some u } else r) }
    u a "device_id" "identify_call"
    ((db.analytics.filter (stitchHit (some a) (some u))).length) now
  refine ⟨db2, ?_, by rw [hana], husers, hall, hexist⟩
  rw [stitchIdentity, hm, except_ok_bind]
  rw [if_neg ?hneg]
  case hneg =>
    intro hc
    simp [Option.any] at hc
  rfl

theorem stitch_rewrites_all (db : DB) (a u : String) :
    ∀ ev ∈ db.analytics.map (fun r =>
      if stitchHit (some a) (some u) r then { r with user_id := some u } else r),
      ev.distinct_id = a → ev.user_id = some u := by
  intro ev hev hd
  obtain ⟨r, hr, hfr⟩ := List.mem_map.mp hev
  by_cases hhit : stitchHit (some a) (some u) r
  · rw [if_pos hhit] at hfr
    subst hfr
    rfl
  · rw [if_neg hhit] at hfr
    subst hfr
    by_cases hru : r.user_id = none
    · exact absurd (show stitchHit (some a) (some u) r = true by
        simp only [stitchHit, decide_eq_true_eq]
        exact ⟨by rw [hd], Or.inl hru⟩) hhit
    · obtain ⟨x, hx⟩ := Option.ne_none_iff_exists.mp hru
      by_cases hxu : x = u
      · rw [← hx, hxu]
      · exact absurd (show stitchHit (some a) (some u) r = true by
          simp only [stitchHit, decide_eq_true_eq]
          exact ⟨by rw [hd], Or.inr (by simp [sqlNeq, ← hx, hxu])⟩) hhit

theorem c4_first_facts (db : DB) (t1 : Int) (r1 : IdentifyResult) (db1 : DB)
    (h1 : handleIdentify db c4FirstPayload t1 = .ok (r1, db1)) :
    (∀ v ∈ db1.users, v.distinct_id = "user-9" ∨ v ∈ db.users) ∧
    (∀ v ∈ db1.users, v.distinct_id ≠ "anon-1") ∧
    (∀ mp ∈ db1.mappings,
      (∃ m0 ∈ db.mappings, mp.canonical_user_id = m0.canonical_user_id ∧
        mp.mapped_id = m0.mapped_id ∧ mp.mapping_type = m0.mapping_type) ∨
      (mp.canonical_user_id = "user-9" ∧ mp.mapped_id = "anon-1" ∧
        mp.mapping_type = "device_id")) ∧
    (∃ mp ∈ db1.mappings, mp.canonical_user_id = "user-9" ∧
      mp.mapped_id = "anon-1" ∧ mp.mapping_type = "device_id") := by
  have e1 : (pget "distinct_id" c4FirstPayload.properties).map valText = some "user-9" := rfl
  have e2 : (pget "$anon_distinct_id" c4FirstPayload.properties).map valText = some "anon-1" := rfl
  have e3 : (pget "$user_id" c4FirstPayload.properties).map valText = some "user-9" := rfl
  have e4 : (pget "$device_id" c4FirstPayload.properties).map valText = none := rfl
  obtain ⟨dbS, hs, hsana, hsusers, hsall, hsexist⟩ :=
    stitchIdentity_noDevice db "anon-1" "user-9" t1
  simp only [handleIdentify, e1, e2, e3, e4, hs, except_ok_bind] at h1
  rw [hsusers] at h1
  cases hfind : List.find? (fun u => decide (some "anon-1" = some u.distinct_id)) db.users with
  | some au =>
      simp only [hfind] at h1
      by_cases hany : (db.users.any fun u => decide (u.distinct_id = "user-9")) = true
      · rw [if_pos (And.intro (by decide) hany)] at h1
        exact Except.noConfusion h1
      · rw [if_neg (fun hc => hany hc.2)] at h1
        injection h1 with h1
        rw [Prod.mk.injEq] at h1
        obtain ⟨hr1, hdb1⟩ := h1
        subst hdb1
        refine ⟨?_, ?_, hsall, hsexist⟩
        · intro v hv
          obtain ⟨u, hu, hfu⟩ := List.mem_map.mp hv
          by_cases hc : some "anon-1" = some u.distinct_id
          · rw [if_pos hc] at hfu
            subst hfu
            exact Or.inl rfl
          · rw [if_neg hc] at hfu
            subst hfu
            exact Or.inr hu
        · intro v hv
          obtain ⟨u, hu, hfu⟩ := List.mem_map.mp hv
          by_cases hc : some "anon-1" = some u.distinct_id
          · rw [if_pos hc] at hfu
            subst hfu
            exact (show ("user-9" : String) ≠ "anon-1" by decide)
          · rw [if_neg hc] at hfu
            subst hfu
            exact fun hh => hc (by rw [hh])
  | none =>
      simp only [hfind] at h1
      by_cases hany : (db.users.any fun u => decide (u.distinct_id = "user-9")) = true
      · rw [if_pos hany] at h1
        exact Except.noConfusion h1
      · rw [if_neg hany] at h1
        injection h1 with h1
        rw [Prod.mk.injEq] at h1
        obtain ⟨hr1, hdb1⟩ := h1
        subst hdb1
        refine ⟨?_, ?_, hsall, hsexist⟩
        · intro v hv
          rcases List.mem_append.mp hv with hv | hv
          · exact Or.inr hv
          · rw [List.mem_singleton.mp hv]
            exact Or.inl rfl
        · intro v hv
          rcases List.mem_append.mp hv with hv | hv
          · have hne := List.find?_eq_none.mp hfind v hv
            simp only [decide_eq_true_eq] at hne
            exact fun hh => hne (by rw [hh])
          · rw [List.mem_singleton.mp hv]
            exact (show ("user-9" : String) ≠ "anon-1" by decide)


/-- C4: once stitch("anon-1","user-9") has run, a second identify re-pointing
"anon-1" to "user-42" reports `identityConflict = true` and does not abort:
the merge proceeds under last-identify-wins, and afterwards every event with
`distinct_id = "anon-1"` carries `user_id = "user-42"`.  (The hypotheses say
the initial store held no `user-42` profile row and no `anon-1` device edge
pointing anywhere but `user-9`.) -/
theorem conflict_detected_last_identify_wins (db : DB) (t1 t2 : Int)
    (r1 : IdentifyResult) (db1 : DB)
    (h1 : handleIdentify db c4FirstPayload t1 = .ok (r1, db1))
    (hA : ∀ v ∈ db.users, v.distinct_id ≠ "user-42")
    (hB : ∀ mp ∈ db.mappings, mp.mapped_id = "anon-1" →
      mp.mapping_type = "device_id" → mp.canonical_user_id = "user-9") :
    ∃ r2 db2, handleIdentify db1 c4SecondPayload t2 = .ok (r2, db2) ∧
      r2.identityConflict = true ∧
      ∀ ev ∈ db2.analytics, ev.distinct_id = "anon-1" →
        ev.user_id = some "user-42" := by
  obtain ⟨f1, f2, f3, f4⟩ := c4_first_facts db t1 r1 db1 h1
  have hcanon : ∀ mp ∈ db1.mappings, mp.mapped_id = "anon-1" →
      mp.mapping_type = "device_id" → mp.canonical_user_id = "user-9" := by
    intro mp hmp hm ht
    rcases f3 mp hmp with ⟨m0, hm0, hc, hmm, hmt⟩ | ⟨hc, _, _⟩
    · rw [hc]
      exact hB m0 hm0 (by rw [← hmm, hm]) (by rw [← hmt, ht])
    · exact hc
  have hlook : ∃ mp, findLatestMapping db1.mappings (some "anon-1") "device_id" =
      some mp ∧ mp.canonical_user_id = "user-9" := by
    obtain ⟨mp0, hmp0, hc0, hm0, ht0⟩ := f4
    have hmem : mp0 ∈ db1.mappings.filter (fun r =>
        decide (some "anon-1" = some r.mapped_id ∧ r.mapping_type = "device_id")) := by
      refine List.mem_filter.mpr ⟨hmp0, ?_⟩
      simp [hm0, ht0]
    cases hfm : firstMaxByConf (db1.mappings.filter (fun r =>
        decide (some "anon-1" = some r.mapped_id ∧ r.mapping_type = "device_id"))) with
    | none =>
        exfalso
        cases hl : db1.mappings.filter (fun r =>
            decide (some "anon-1" = some r.mapped_id ∧ r.mapping_type = "device_id")) with
        | nil =>
            rw [hl] at hmem
            exact absurd hmem (List.not_mem_nil _)
        | cons a as =>
            rw [hl] at hfm
            exact firstMaxByConf_cons_ne_none a as hfm
    | some mp =>
        refine ⟨mp, hfm, ?_⟩
        obtain ⟨hmem2, _⟩ := firstMaxByConf_spec _ mp hfm
        have hin := List.mem_filter.mp hmem2
        have hcond := of_decide_eq_true hin.2
        exact hcanon mp hin.1 (Option.some.inj hcond.1).symm hcond.2
  obtain ⟨mpE, hfindE, hcanE⟩ := hlook
  have e1 : (pget "distinct_id" c4SecondPayload.properties).map valText = some "user-42" := rfl
  have e2 : (pget "$anon_distinct_id" c4SecondPayload.properties).map valText = some "anon-1" := rfl
  have e3 : (pget "$user_id" c4SecondPayload.properties).map valText = some "user-42" := rfl
  have e4 : (pget "$device_id" c4SecondPayload.properties).map valText = none := rfl
  obtain ⟨dbS2, hs2, hsana2, hsusers2, hsall2, hsexist2⟩ :=
    stitchIdentity_noDevice db1 "anon-1" "user-42" t2
  have hnofind : List.find? (fun u => decide (some "anon-1" = some u.distinct_id))
      db1.users = none := by
    apply List.find?_eq_none.mpr
    intro u hu
    simp only [decide_eq_true_eq]
    intro hh
    exact f2 u hu (Option.some.inj hh).symm
  have hany42 : ¬ ((db1.users.any fun u => decide (u.distinct_id = "user-42")) = true) := by
    rw [List.any_eq_true]
    rintro ⟨u, hu, hdec⟩
    have hu42 := of_decide_eq_true hdec
    rcases f1 u hu with h9 | hdb
    · rw [h9] at hu42
      exact absurd hu42 (by decide)
    · exact hA u hdb hu42
  have hrun : handleIdentify db1 c4SecondPayload t2 = .ok
      (⟨(List.filter (stitchHit (some "anon-1") (some "user-42")) db1.analytics).length,
        true⟩,
       ⟨dbS2.analytics,
        db1.users ++ [⟨"user-42", some "user-42", some "anon-1", none, none, none,
          none, "identified", some [], t2, t2, some t2⟩],
        dbS2.mappings⟩) := by
    simp only [handleIdentify, e1, e2, e3, e4, hs2, except_ok_bind, hsusers2,
      hnofind, hfindE, hcanE]
    rw [if_neg hany42]
    rfl
  refine ⟨_, _, hrun, rfl, ?_⟩
  intro ev hev hd
  have hev2 : ev ∈ db1.analytics.map (fun r =>
      if stitchHit (some "anon-1") (some "user-42") r
      then { r with user_id := some "user-42" } else r) := by
    rw [← hsana2]
    exact hev
  exact stitch_rewrites_all db1 "anon-1" "user-42" ev hev2 hd

/-- C4 witness: on the concrete store left by the first identify call, the
conflicting second identify succeeds with the conflict flag raised. -/
theorem conflict_detected_last_identify_wins_witness :
    ∃ r2 db2, handleIdentify c4AfterFirst c4SecondPayload 2 = .ok (r2, db2) ∧
      r2.identityConflict = true ∧
      ∀ ev ∈ db2.analytics, ev.distinct_id = "anon-1" →
        ev.user_id = some "user-42" :=
  conflict_detected_last_identify_wins ⟨[], [], []⟩ 1 2 ⟨0, false⟩ c4AfterFirst
    rfl (fun v hv => absurd hv (List.not_mem_nil v))
    (fun mp hmp => absurd hmp (List.not_mem_nil mp))

/-- C3: the repeat of an identical identify call is NOT idempotent in the
code: the first call renames the `analytics_users` row keyed `anon-1` to
`user-9`, so the second call no longer finds a row under the anonymous id,
takes the INSERT branch with `distinct_id = "user-9"`, and violates the
UNIQUE NOT NULL constraint — the transaction rolls back with an error
instead of returning `eventsStitched = 0`. -/
theorem repeat_identify_unique_violation :
    handleIdentify c3Start c3IdentifyPayload 10 = .ok (⟨1, false⟩, c3AfterFirst) ∧
    handleIdentify c3AfterFirst c3IdentifyPayload 20 = .error .uniqueViolation :=
  ⟨rfl, rfl⟩

/-- C5: with N historical events for `anon-1`, all with null `user_id`, and
none attributed to the target user, `stitchIdentity` returns
`eventsStitched = N` (counted over exactly the rows about to change, before
mutation), and afterwards every `anon-1` event carries
`user_id = "user-9"` while the `distinct_id` column is unchanged on every
row. -/
theorem stitch_count_and_rewrite (db : DB) (now : Int)
    (h : ∀ ev ∈ db.analytics, ev.distinct_id = "anon-1" → ev.user_id = none) :
    ∃ db2, stitchIdentity db (some "anon-1") (some "user-9") none now =
        .ok ((db.analytics.filter (fun ev => ev.distinct_id = "anon-1")).length, db2) ∧
      db2.analytics.map (fun ev => ev.distinct_id) =
        db.analytics.map (fun ev => ev.distinct_id) ∧
      ∀ ev ∈ db2.analytics, ev.distinct_id = "anon-1" →
        ev.user_id = some "user-9" := by
  obtain ⟨db2, hs, hana, husers, hall, hexist⟩ :=
    stitchIdentity_noDevice db "anon-1" "user-9" now
  have hfilter : db.analytics.filter (stitchHit (some "anon-1") (some "user-9")) =
      db.analytics.filter (fun ev => ev.distinct_id = "anon-1") := by
    apply List.filter_congr
    intro ev hev
    simp only [stitchHit, decide_eq_decide]
    constructor
    · rintro ⟨heq, _⟩
      exact (Option.some.inj heq).symm
    · intro hd
      exact ⟨by rw [hd], Or.inl (h ev hev hd)⟩
  refine ⟨db2, by rw [hs, hfilter], ?_, ?_⟩
  · rw [hana, List.map_map]
    apply List.map_congr_left
    intro r hr
    by_cases hhit : stitchHit (some "anon-1") (some "user-9") r
    · simp [Function.comp, hhit]
    · simp [Function.comp, hhit]
  · intro ev hev hd
    rw [hana] at hev
    obtain ⟨r, hr, hfr⟩ := List.mem_map.mp hev
    by_cases hhit : stitchHit (some "anon-1") (some "user-9") r
    · rw [if_pos hhit] at hfr
      subst hfr
      rfl
    · rw [if_neg hhit] at hfr
      subst hfr
      refine absurd ?_ hhit
      simp only [stitchHit, decide_eq_true_eq]
      exact ⟨by rw [hd], Or.inl (h r hr hd)⟩

/-- C5 witness: two `anon-1` events with null `user_id` plus one unrelated
event; the stitch reports 2 and rewrites exactly the two. -/
theorem stitch_count_and_rewrite_witness :
    ∃ db2, stitchIdentity c5Start (some "anon-1") (some "user-9") none 7 =
        .ok ((c5Start.analytics.filter
          (fun ev => ev.distinct_id = "anon-1")).length, db2) ∧
      db2.analytics.map (fun ev => ev.distinct_id) =
        c5Start.analytics.map (fun ev => ev.distinct_id) ∧
      ∀ ev ∈ db2.analytics, ev.distinct_id = "anon-1" →
        ev.user_id = some "user-9" :=
  stitch_count_and_rewrite c5Start 7 (by decide)

/- Fidelity checks of the JS date and platform semantics at the inputs
where a naive model would diverge from the program. -/

/-- A numeric-string `time` is coerced by JS ("100" * 1000 = 100000): the
event is committed with that timestamp and the endpoint answers success. -/
theorem track_accepts_numeric_string_time :
    (trackHandler ⟨[], [], []⟩
      ⟨some "Ping", [("distinct_id", .str "a"), ("time", .str "100")]⟩
      "d" 0).1 = .ok 1 "d" ∧
    ((trackHandler ⟨[], [], []⟩
      ⟨some "Ping", [("distinct_id", .str "a"), ("time", .str "100")]⟩
      "d" 0).2.analytics.map (fun r => r.timestamp)) = [100000] := by decide

/-- A numeric `time` beyond the ±8.64e15 ms JS Date range yields an Invalid
Date: the INSERT throws and the transaction rolls back with the 500 body. -/
theorem track_out_of_range_time_rolls_back :
    trackHandler ⟨[], [], []⟩
      ⟨some "Ping", [("distinct_id", .str "a"), ("time", .num 10000000000000),
        ("$device_id", .str "d")]⟩ "d" 0 =
      (.serverFailure, ⟨[], [], []⟩) := by decide

/-- A truthy non-string `$os` makes `detectPlatform` call `.toLowerCase()`
on a number: the TypeError unwinds, the transaction rolls back, 500. -/
theorem track_numeric_os_rolls_back :
    trackHandler ⟨[], [], []⟩
      ⟨some "Ping", [("distinct_id", .str "a"), ("time", .num 5),
        ("$os", .num 5)]⟩ "d" 0 =
      (.serverFailure, ⟨[], [], []⟩) := by decide

/- Claim theorems. -/

/-- C9: event categorization is a case-insensitive substring match over five
fixed keyword sets in the fixed priority order fitness, ecommerce,
navigation, error, user-lifecycle, first match wins, `general` when nothing
matches; in particular `"Workout Purchase Error"` categorizes as `fitness`. -/
theorem categorize_matches_priority_table :
    (∀ s, categorizeEvent s = specCategorize s) ∧
    categorizeEvent "Workout Purchase Error" = "fitness" := by
  constructor
  · intro s
    simp only [categorizeEvent, specCategorize, keywordTable, firstKeywordMatch,
      List.any_cons, List.any_nil, Bool.or_false, Bool.or_assoc]
  · decide

/-- C6: after normalization none of the reserved system keys survive in the
stored properties, and the very same `sanitizeProperties` output is what
`extractEventData` stores for identify events and plain events alike. -/
theorem sanitization_invariant (properties : Props) (k : String)
    (hk : k ∈ systemFields) :
    pget k (sanitizeProperties properties) = none ∧
    ∀ (e : EventData) (b : Bool) (t : Transformed),
      extractEventData e b = .ok t → t.properties = sanitizeProperties e.properties := by
  refine ⟨pget_sanitizeProperties properties k hk, ?_⟩
  intro e b t h
  cases he : e.event with
  | none => simp [extractEventData, he] at h
  | some ev =>
      simp only [extractEventData, he] at h
      cases hp : detectPlatform e.properties with
      | error f =>
          simp only [hp] at h
          exact Except.noConfusion h
      | ok platform =>
          simp only [hp] at h
          injection h with h
          subst h
          rfl

/-- C6 witness: the reserved key `distinct_id` is gone from a concrete
sanitized map. -/
theorem sanitization_invariant_witness :
    pget "distinct_id"
      (sanitizeProperties [("distinct_id", .str "x"), ("plan", .str "pro")]) = none :=
  (sanitization_invariant [("distinct_id", .str "x"), ("plan", .str "pro")]
    "distinct_id" (by decide)).1

/-- C8 counterexample: two mapping edges for the same mapped id with equal
confidence; the conflict-detection query returns the FIRST stored edge, which
is the less recently affirmed one, so the most-recent tie-break the claim
states does not exist. -/
theorem findLatestMapping_ignores_recency :
    findLatestMapping [c8EdgeOld, c8EdgeNew] (some "anon-1") "device_id" =
      some c8EdgeOld ∧
    c8EdgeOld.confidence_score = c8EdgeNew.confidence_score ∧
    c8EdgeOld.last_seen < c8EdgeNew.last_seen := by decide

/-- C8 as amended: the conflict-detection lookup returns a matching edge of
maximal confidence (ORDER BY confidence_score DESC LIMIT 1); no recency
tie-break is applied. -/
theorem findLatestMapping_max_confidence (rows : List MappingRow)
    (mappedId : Option String) (mappingType : String) (m : MappingRow)
    (h : findLatestMapping rows mappedId mappingType = some m) :
    m ∈ rows ∧ mappedId = some m.mapped_id ∧ m.mapping_type = mappingType ∧
    ∀ m2 ∈ rows, mappedId = some m2.mapped_id → m2.mapping_type = mappingType →
      m2.confidence_score ≤ m.confidence_score := by
  obtain ⟨hmem, hmax⟩ := firstMaxByConf_spec _ m h
  have hm := List.mem_filter.mp hmem
  have hcond := of_decide_eq_true hm.2
  refine ⟨hm.1, hcond.1, hcond.2, ?_⟩
  intro m2 hm2 hmap htype
  exact hmax m2 (List.mem_filter.mpr ⟨hm2, decide_eq_true ⟨hmap, htype⟩⟩)

/-- C8 amended witness: on the concrete two-edge store the returned edge has
maximal confidence among the matches. -/
theorem findLatestMapping_max_confidence_witness :
    c8EdgeOld ∈ [c8EdgeOld, c8EdgeNew] ∧
    (some "anon-1") = some c8EdgeOld.mapped_id ∧
    c8EdgeOld.mapping_type = "device_id" ∧
    ∀ m2 ∈ [c8EdgeOld, c8EdgeNew], (some "anon-1") = some m2.mapped_id →
      m2.mapping_type = "device_id" →
      m2.confidence_score ≤ c8EdgeOld.confidence_score :=
  findLatestMapping_max_confidence [c8EdgeOld, c8EdgeNew] (some "anon-1")
    "device_id" c8EdgeOld (by decide)

/-- C10: every accepted profile update, for an existing row and for a fresh
one alike, also appends exactly one `$profile_set` event to `analytics` in
the same transaction, with category `user`, platform `api`, and both
`distinct_id` and `user_id` equal to the supplied `$distinct_id`. -/
theorem engage_appends_profile_event (db : DB) (p : ProfilePayload) (now : Int)
    (dv : Val) (hd : p.distinct_id = some dv) :
    ∃ db2 row, engageHandler db p now = (.ok, db2) ∧
      db2.analytics = db.analytics ++ [row] ∧
      row.event_name = "$profile_set" ∧ row.event_category = "user" ∧
      row.platform = "api" ∧ row.distinct_id = valText dv ∧
      row.user_id = some (valText dv) := by
  by_cases hex : ∃ x ∈ db.users, valText dv = x.distinct_id
  · exact ⟨_, _, by simp [engageHandler, hd, hex]; rfl, rfl, rfl, rfl, rfl, rfl, rfl⟩
  · exact ⟨_, _, by simp [engageHandler, hd, hex]; rfl, rfl, rfl, rfl, rfl, rfl, rfl⟩

/-- C1 counterexample: a plain event with no `$user_id`, sent by a
first-seen anonymous visitor, is persisted with `user_id` equal to its own
distinct id (the `properties.$user_id || properties.distinct_id` fallback,
part_000 line 45), not with `user_id = null`. -/
theorem track_persists_nonnull_user_id :
    ((trackHandler ⟨[], [], []⟩
        ⟨some "Page View", [("distinct_id", .str "anon-1"), ("time", .num 100)]⟩
        "dev-1" 0).2.analytics.map (fun r => r.user_id)) = [some "anon-1"] ∧
    some "anon-1" ≠ (none : Option String) := by decide

/-- C1 as amended: for every plain event whose properties carry no
`$user_id` and which the ingestion path accepts (the payload carries a
`time` that coerces to a representable date and a `$os` on which platform
derivation does not throw), the persisted `user_id` of the event row equals
its own payload `distinct_id` value — never null when a distinct id is
present — because the ingestion path computes `$user_id || distinct_id`
instead of resolving a canonical identity. -/
theorem track_user_id_falls_back_to_distinct_id (db : DB) (n : String)
    (properties : Props) (reqDeviceId : String) (now : Int) (dv : Val)
    (ts : Int) (p : String)
    (hn : n ≠ "$identify")
    (hu : pget "$user_id" properties = none)
    (hdist : pget "distinct_id" properties = some dv)
    (ht : jsTimestamp (pget "time" properties) = some ts)
    (hplat : detectPlatform properties = .ok p) :
    ∃ row, (trackHandler db ⟨some n, properties⟩ reqDeviceId now).2.analytics =
        db.analytics ++ [row] ∧
      row.distinct_id = valText dv ∧ row.user_id = some (valText dv) := by
  simp only [trackHandler]
  by_cases hdev : truthyO (pget "$device_id" properties)
  · rw [if_pos hdev]
    obtain ⟨row, db2, htx, hdb2, hd2, hu2⟩ :=
      trackTx_plain_spec db n properties now dv ts p hn hu hdist ht hplat
    rw [htx]
    exact ⟨row, hdb2, hd2, hu2⟩
  · rw [if_neg hdev]
    obtain ⟨row, db2, htx, hdb2, hd2, hu2⟩ := trackTx_plain_spec db n
      (setProp properties "$device_id" (.str reqDeviceId)) now dv ts p hn
      (by rw [pget_setProp_ne _ _ _ _ (by decide)]; exact hu)
      (by rw [pget_setProp_ne _ _ _ _ (by decide)]; exact hdist)
      (by rw [pget_setProp_ne _ _ _ _ (by decide)]; exact ht)
      (by rw [detectPlatform_setProp]; exact hplat)
    rw [htx]
    exact ⟨row, hdb2, hd2, hu2⟩

/-- C1 amended witness: a concrete plain event without `$user_id` lands with
`user_id = "u7"`, its own distinct id. -/
theorem track_user_id_fallback_witness :
    ∃ row, (trackHandler ⟨[], [], []⟩
        ⟨some "Ping", [("distinct_id", .str "u7"), ("time", .num 3)]⟩
        "d" 0).2.analytics = (⟨[], [], []⟩ : DB).analytics ++ [row] ∧
      row.distinct_id = valText (.str "u7") ∧
      row.user_id = some (valText (.str "u7")) :=
  track_user_id_falls_back_to_distinct_id ⟨[], [], []⟩ "Ping"
    [("distinct_id", .str "u7"), ("time", .num 3)] "d" 0 (.str "u7") 3000
    "unknown" (by decide) (by decide) (by decide) (by decide) rfl

/-- C2 counterexample: a payload with no event name (distinct id and epoch
time present) is answered with the uniform 500 server response, not with a
`ValidationError` client error — no validation exists; the thrown TypeError
is caught by the catch-all handler. -/
theorem track_missing_event_is_server_error :
    trackHandler ⟨[], [], []⟩
      ⟨none, [("distinct_id", .str "anon-1"), ("time", .num 5)]⟩ "dev-1" 0 =
      (.serverFailure, ⟨[], [], []⟩) := by decide

theorem timeCertainlyInvalid_jsTimestamp (v : Option Val)
    (h : timeCertainlyInvalid v) : jsTimestamp v = none := by
  match v with
  | none => rfl
  | some (.num t) =>
      simp only [timeCertainlyInvalid] at h
      simp only [jsTimestamp, jsToNumber]
      rw [if_neg (Nat.not_le_of_lt h)]
  | some (.str s) => exact absurd h (by simp [timeCertainlyInvalid])

/-- C2 as amended: a payload missing its event name, missing
`properties.distinct_id`, or whose `time` certainly yields an Invalid Date
(absent, or an integer outside the representable JS Date range) makes some
step of the transaction throw — there is no validation and no
`ValidationError` class; the transaction is rolled back, so the committed
store is unchanged (though mutations may have been attempted inside it), and
the caller receives the uniform 500 server error rather than a client
error.  (A numeric-string `time` such as "100" is NOT malformed: JS coerces
it and the event commits, see `track_accepts_numeric_string_time`.) -/
theorem track_malformed_rolls_back (db : DB) (e : EventData) (rid : String)
    (now : Int)
    (h : e.event = none ∨ pget "distinct_id" e.properties = none ∨
         timeCertainlyInvalid (pget "time" e.properties)) :
    trackHandler db e rid now = (.serverFailure, db) := by
  simp only [trackHandler]
  by_cases hdev : truthyO (pget "$device_id" e.properties)
  · rw [if_pos hdev]
    cases htx : trackTx db e now with
    | error f => rfl
    | ok v =>
        exfalso
        obtain ⟨hev, hd2, ht2⟩ := trackTx_ok_needs_valid db e now v htx
        rcases h with h | h | h
        · exact hev h
        · exact hd2 h
        · exact ht2 (timeCertainlyInvalid_jsTimestamp _ h)
  · rw [if_neg hdev]
    cases htx : trackTx db
        { e with properties := setProp e.properties "$device_id" (.str rid) } now with
    | error f => rfl
    | ok v =>
        exfalso
        obtain ⟨hev, hd2, ht2⟩ := trackTx_ok_needs_valid db _ now v htx
        rcases h with h | h | h
        · exact hev h
        · exact hd2 (by rw [pget_setProp_ne _ _ _ _ (by decide)]; exact h)
        · refine ht2 ?_
          rw [show pget "time" (setProp e.properties "$device_id" (.str rid)) =
            pget "time" e.properties from pget_setProp_ne _ _ _ _ (by decide)]
          exact timeCertainlyInvalid_jsTimestamp _ h

/-- C2 amended witness: a concrete payload with an event name and a distinct
id but no `time` is rolled back and answered with the 500 body. -/
theorem track_malformed_rolls_back_witness :
    trackHandler ⟨[], [], []⟩ ⟨some "Ping", [("distinct_id", .str "a")]⟩ "d" 0 =
      (.serverFailure, ⟨[], [], []⟩) :=
  track_malformed_rolls_back ⟨[], [], []⟩ ⟨some "Ping", [("distinct_id", .str "a")]⟩
    "d" 0 (Or.inr (Or.inr trivial))

/-- C7 counterexample: the stored custom properties of `u1` hold the keys
`plan` and `color`; an update supplying only `color` replaces the whole map,
so the absent key `plan` is dropped rather than left untouched. -/
theorem engage_drops_absent_custom_keys :
    (c7Start.users.map (fun u => u.properties)) =
      [some [("plan", Val.str "pro"), ("color", Val.str "red")]] ∧
    ((engageHandler c7Start c7Payload 5).2.users.map (fun u => u.properties)) =
      [some [("color", Val.str "blue")]] ∧
    pget "plan" [("color", Val.str "blue")] = none := by decide

/-- C7 as amended: the profile update is last-write-wins per COLUMN: the
email / first-name / last-name columns and the custom-properties column each
keep their old value when absent from the update and take the supplied value
when present — but the custom-properties column is replaced as a whole, so
when any custom key is supplied the stored map becomes exactly the supplied
map (keys absent from the update are dropped, see the counterexample).
Rows with another distinct id are untouched. -/
theorem engage_update_lww_per_column (db : DB) (p : ProfilePayload) (now : Int)
    (dv : Val) (hd : p.distinct_id = some dv)
    (hex : ∃ x ∈ db.users, valText dv = x.distinct_id) :
    ∃ db2, engageHandler db p now = (.ok, db2) ∧
      db2.users.length = db.users.length ∧
      ∀ i (h1 : i < db.users.length) (h2 : i < db2.users.length),
        ((db.users.get ⟨i, h1⟩).distinct_id ≠ valText dv →
          db2.users.get ⟨i, h2⟩ = db.users.get ⟨i, h1⟩) ∧
        ((db.users.get ⟨i, h1⟩).distinct_id = valText dv →
          (db2.users.get ⟨i, h2⟩).distinct_id = (db.users.get ⟨i, h1⟩).distinct_id ∧
          (db2.users.get ⟨i, h2⟩).user_id = (db.users.get ⟨i, h1⟩).user_id ∧
          (db2.users.get ⟨i, h2⟩).user_state = (db.users.get ⟨i, h1⟩).user_state ∧
          (db2.users.get ⟨i, h2⟩).device_ids = (db.users.get ⟨i, h1⟩).device_ids ∧
          (engageEmail p.set = none →
            (db2.users.get ⟨i, h2⟩).email = (db.users.get ⟨i, h1⟩).email) ∧
          (∀ x, engageEmail p.set = some x →
            (db2.users.get ⟨i, h2⟩).email = some (valText x)) ∧
          (engageFirstName p.set = none →
            (db2.users.get ⟨i, h2⟩).first_name = (db.users.get ⟨i, h1⟩).first_name) ∧
          (∀ x, engageFirstName p.set = some x →
            (db2.users.get ⟨i, h2⟩).first_name = some (valText x)) ∧
          (engageLastName p.set = none →
            (db2.users.get ⟨i, h2⟩).last_name = (db.users.get ⟨i, h1⟩).last_name) ∧
          (∀ x, engageLastName p.set = some x →
            (db2.users.get ⟨i, h2⟩).last_name = some (valText x)) ∧
          (engageCustom p.set = [] →
            (db2.users.get ⟨i, h2⟩).properties = (db.users.get ⟨i, h1⟩).properties) ∧
          (engageCustom p.set ≠ [] →
            (db2.users.get ⟨i, h2⟩).properties = some (engageCustom p.set))) := by
  refine ⟨_, by simp [engageHandler, hd, hex]; rfl, by simp, ?_⟩
  intro i h1 h2
  have hget : ∀ (f : UserRow → UserRow) (hh : i < (db.users.map f).length),
      (db.users.map f).get ⟨i, hh⟩ = f (db.users.get ⟨i, h1⟩) := by
    intro f hh
    simp [List.get_eq_getElem, List.getElem_map]
  by_cases hu : (db.users.get ⟨i, h1⟩).distinct_id = valText dv
  · refine ⟨fun hne => absurd hu hne, fun _ => ?_⟩
    rw [hget]
    rw [if_pos hu.symm]
    refine ⟨rfl, rfl, rfl, rfl, ?_, ?_, ?_, ?_, ?_, ?_, ?_, ?_⟩
    · intro he; simp [he, coalesce]
    · intro x he; simp [he, coalesce]
    · intro he; simp [he, coalesce]
    · intro x he; simp [he, coalesce]
    · intro he; simp [he, coalesce]
    · intro x he; simp [he, coalesce]
    · intro hc; simp [hc, coalesce]
    · intro hc
      have hlen : 0 < (engageCustom p.set).length := List.length_pos.mpr hc
      simp [hlen, coalesce]
  · refine ⟨fun _ => ?_, fun heq => absurd heq hu⟩
    rw [hget]
    rw [if_neg (fun hh => hu hh.symm)]

/-- C7 amended witness: a concrete update on `u1` keeps the untouched
columns and replaces the properties column. -/
theorem engage_update_lww_per_column_witness :
    ∃ db2, engageHandler c7Start c7Payload 5 = (.ok, db2) ∧
      db2.users.length = c7Start.users.length ∧
      ∀ i (h1 : i < c7Start.users.length) (h2 : i < db2.users.length),
        ((c7Start.users.get ⟨i, h1⟩).distinct_id ≠ valText (.str "u1") →
          db2.users.get ⟨i, h2⟩ = c7Start.users.get ⟨i, h1⟩) ∧
        ((c7Start.users.get ⟨i, h1⟩).distinct_id = valText (.str "u1") →
          (db2.users.get ⟨i, h2⟩).distinct_id = (c7Start.users.get ⟨i, h1⟩).distinct_id ∧
          (db2.users.get ⟨i, h2⟩).user_id = (c7Start.users.get ⟨i, h1⟩).user_id ∧
          (db2.users.get ⟨i, h2⟩).user_state = (c7Start.users.get ⟨i, h1⟩).user_state ∧
          (db2.users.get ⟨i, h2⟩).device_ids = (c7Start.users.get ⟨i, h1⟩).device_ids ∧
          (engageEmail c7Payload.set = none →
            (db2.users.get ⟨i, h2⟩).email = (c7Start.users.get ⟨i, h1⟩).email) ∧
          (∀ x, engageEmail c7Payload.set = some x →
            (db2.users.get ⟨i, h2⟩).email = some (valText x)) ∧
          (engageFirstName c7Payload.set = none →
            (db2.users.get ⟨i, h2⟩).first_name = (c7Start.users.get ⟨i, h1⟩).first_name) ∧
          (∀ x, engageFirstName c7Payload.set = some x →
            (db2.users.get ⟨i, h2⟩).first_name = some (valText x)) ∧
          (engageLastName c7Payload.set = none →
            (db2.users.get ⟨i, h2⟩).last_name = (c7Start.users.get ⟨i, h1⟩).last_name) ∧
          (∀ x, engageLastName c7Payload.set = some x →
            (db2.users.get ⟨i, h2⟩).last_name = some (valText x)) ∧
          (engageCustom c7Payload.set = [] →
            (db2.users.get ⟨i, h2⟩).properties = (c7Start.users.get ⟨i, h1⟩).properties) ∧
          (engageCustom c7Payload.set ≠ [] →
            (db2.users.get ⟨i, h2⟩).properties = some (engageCustom c7Payload.set))) :=
  engage_update_lww_per_column c7Start c7Payload 5 (.str "u1") rfl
    ⟨c7Row, by decide, by decide⟩

/-- C10 witness: a concrete profile update appends the `$profile_set` event. -/
theorem engage_appends_profile_event_witness :
    ∃ db2 row, engageHandler c7Start c7Payload 5 = (.ok, db2) ∧
      db2.analytics = c7Start.analytics ++ [row] ∧
      row.event_name = "$profile_set" ∧ row.event_category = "user" ∧
      row.platform = "api" ∧ row.distinct_id = valText (.str "u1") ∧
      row.user_id = some (valText (.str "u1")) :=
  engage_appends_profile_event c7Start c7Payload 5 (.str "u1") rfl

end AnalyticsApi
